import Mathlib

/-!
Verification of the species-card / edit-dialog components
(`src/app/species/species-card.tsx` and the edit dialog module).

The embedding models the `Species` record, the zod form schema and its
validation, the submit handler `doOnSubmit` of the edit dialog, and the
card component state with its delete flow and rendering helpers.
Remote calls, toasts and state setters are modelled as an explicit
effect trace; the remote outcome (success or thrown failure) is an input.
-/

/-- The closed six-value taxonomy enum (`kingdom` field of `Species`). -/
inductive Kingdom where
  | Animalia
  | Plantae
  | Fungi
  | Protista
  | Archaea
  | Bacteria
deriving DecidableEq, Repr

/-- The `Species` interface: `id`, `author`, `scientific_name`,
`common_name`, `kingdom`, `total_population`, `description`, `image`.
Nullable TS fields become `Option`. -/
structure Species where
  id : Int
  author : String
  scientific_name : String
  common_name : Option String
  kingdom : Kingdom
  total_population : Option Int
  description : Option String
  image : Option String
deriving DecidableEq, Repr

/-- A JS number produced by `parseInt`: an integer or NaN. -/
inductive JsNumber where
  | int (n : Int)
  | nan
deriving DecidableEq, Repr

/-- Reads a run of leading decimal digits; `seen` records whether at least
one digit has been consumed. Returns `none` when no digit was read
(the NaN case of `parseInt`). -/
def jsParseIntCore : List Char → Nat → Bool → Option Nat
  | [], acc, seen => if seen then some acc else none
  | c :: rest, acc, seen =>
      if c.isDigit then jsParseIntCore rest (acc * 10 + (c.toNat - 48)) true
      else if seen then some acc else none

/-- JS `.trim()` over the character list: drop leading and trailing
whitespace. -/
def jsTrimChars (cs : List Char) : List Char :=
  ((cs.dropWhile Char.isWhitespace).reverse.dropWhile Char.isWhitespace).reverse

/-- JS `parseInt(value, 10)`: skip leading whitespace, read an optional
sign and then leading decimal digits, ignoring any trailing characters;
NaN when no digit is present. -/
def jsParseInt (s : String) : JsNumber :=
  match s.toList.dropWhile Char.isWhitespace with
  | '-' :: rest =>
      match jsParseIntCore rest 0 false with
      | some n => .int (-(n : Int))
      | none => .nan
  | '+' :: rest =>
      match jsParseIntCore rest 0 false with
      | some n => .int (n : Int)
      | none => .nan
  | cs =>
      match jsParseIntCore cs 0 false with
      | some n => .int (n : Int)
      | none => .nan

/-- `setValueAs` for the population input:
`(value: string) => (value === "" ? null : parseInt(value, 10))`. -/
def populationSetValueAs (value : String) : Option JsNumber :=
  if value = "" then none else some (jsParseInt value)

/-- The raw form state fed to validation: the scientific name is a free
string (possibly empty), the population is the result of `setValueAs`
(null, an integer, or NaN), and the kingdom is constrained by the select
control to the six enum values. -/
structure RawForm where
  scientific_name : String
  common_name : Option String
  kingdom : Kingdom
  total_population : Option JsNumber
  description : Option String
deriving DecidableEq, Repr

/-- Validated form data (`z.infer<typeof speciesSchema>`): the population
is an integer or absent, never NaN. -/
structure FormData where
  scientific_name : String
  common_name : Option String
  kingdom : Kingdom
  total_population : Option Int
  description : Option String
deriving DecidableEq, Repr

/-- A field-level validation message: field name and message text. -/
structure FieldError where
  field : String
  message : String
deriving DecidableEq, Repr

/-- `z.string().min(1, { message: "Scientific name is required" })`. -/
def validateScientificName (s : String) : Except FieldError String :=
  if s.length ≥ 1 then .ok s
  else .error ⟨"scientific_name", "Scientific name is required"⟩

/-- `z.number().nullable()` on the population: null passes as absent,
an integer passes, NaN is rejected by `z.number()`. -/
def validatePopulation : Option JsNumber → Except FieldError (Option Int)
  | none => .ok none
  | some (.int n) => .ok (some n)
  | some .nan => .error ⟨"total_population", "Expected number, received nan"⟩

/-- The field errors the schema reports for a raw form. -/
def speciesSchemaIssues (f : RawForm) : List FieldError :=
  (match validateScientificName f.scientific_name with
   | .ok _ => []
   | .error e => [e]) ++
  (match validatePopulation f.total_population with
   | .ok _ => []
   | .error e => [e])

/-- `speciesSchema` applied to the raw form: either the validated
`FormData` or the list of field errors. -/
def speciesSchemaValidate (f : RawForm) : Except (List FieldError) FormData :=
  match validateScientificName f.scientific_name,
        validatePopulation f.total_population with
  | .ok sn, .ok tp =>
      .ok { scientific_name := sn
            common_name := f.common_name
            kingdom := f.kingdom
            total_population := tp
            description := f.description }
  | _, _ => .error (speciesSchemaIssues f)

example : speciesSchemaValidate
    { scientific_name := "Panthera leo", common_name := some "Lion",
      kingdom := .Animalia, total_population := populationSetValueAs "",
      description := none } =
    .ok { scientific_name := "Panthera leo", common_name := some "Lion",
          kingdom := .Animalia, total_population := none,
          description := none } := rfl

example : jsParseInt "20000" = .int 20000 := rfl

/-- A remote-operation failure caught in a handler: `message = some m`
models `error instanceof Error` with `error.message = m`; `message = none`
models a thrown value that is not an `Error` instance. -/
structure Failure where
  message : Option String
deriving DecidableEq, Repr

/-- Outcome of the single remote call issued by a handler. -/
inductive Outcome where
  | success
  | failure (f : Failure)
deriving DecidableEq, Repr

/-- Observable side effects of the handlers: remote store calls, the
update callback, toasts (normal or `variant: "destructive"`), the router
refresh, and the state setters of the component. -/
inductive Effect where
  | remoteUpdate (id : Int) (fields : FormData)
  | remoteDelete (id : Int)
  | callback (s : Species)
  | toastNormal (title description : String)
  | toastDestructive (title description : String)
  | routerRefresh
  | setOpen (b : Bool)
  | setConfirmDelete (b : Bool)
  | setLoading (b : Bool)
deriving DecidableEq, Repr

/-- The merged record passed to `onSpeciesUpdated`: spread of `species`
with the five editable fields overwritten by the form data. -/
def mergeSpecies (species : Species) (data : FormData) : Species :=
  { species with
    scientific_name := data.scientific_name
    common_name := data.common_name
    kingdom := data.kingdom
    total_population := data.total_population
    description := data.description }

/-- `doOnSubmit` of the edit dialog, as the trace of effects it performs
for a given remote outcome: set loading, issue the update keyed by
`species.id`; on success invoke the callback with the merged record,
toast success, close the dialog; on a caught failure toast the message
only when the thrown value is an `Error`; finally clear loading. -/
def doOnSubmit (species : Species) (data : FormData) (o : Outcome) : List Effect :=
  [.setLoading true,
   .remoteUpdate species.id
     { scientific_name := data.scientific_name
       common_name := data.common_name
       kingdom := data.kingdom
       total_population := data.total_population
       description := data.description }] ++
  (match o with
   | .success =>
       [.callback (mergeSpecies species data),
        .toastNormal "Species updated"
          "The species information has been updated successfully.",
        .setOpen false]
   | .failure fl =>
       match fl.message with
       | some m => [.toastDestructive "Error updating species" m]
       | none => []) ++
  [.setLoading false]

/-- Result of the form submit wrapper: surfaced field errors and the
effect trace of the handler (empty when validation blocked the call). -/
structure SubmitResult where
  fieldErrors : List FieldError
  effects : List Effect
deriving DecidableEq, Repr

/-- `form.handleSubmit(doOnSubmit)`: validate against the schema; on
failure surface the field errors and perform nothing; on success run
`doOnSubmit` on the validated data. -/
def handleFormSubmit (species : Species) (f : RawForm) (o : Outcome) : SubmitResult :=
  match speciesSchemaValidate f with
  | .ok data => { fieldErrors := [], effects := doOnSubmit species data o }
  | .error es => { fieldErrors := es, effects := [] }

/-- The transient state of `SpeciesCard`: the three dialog flags and the
locally cached record. The detail-dialog flag is named `open` in the
source; `open` is reserved here. -/
structure CardState where
  openDetail : Bool
  openEdit : Bool
  confirmDelete : Bool
  currentSpecies : Species
deriving DecidableEq, Repr

/-- The state of a freshly mounted card: all dialogs closed, the cached
record initialised from the `species` prop. -/
def initCardState (species : Species) : CardState :=
  { openDetail := false, openEdit := false, confirmDelete := false,
    currentSpecies := species }

/-- `handleSpeciesUpdated`: replace the cached record with the updated
one. -/
def handleSpeciesUpdated (st : CardState) (updatedSpecies : Species) : CardState :=
  { st with currentSpecies := updatedSpecies }

/-- One successful edit round-trip as the card observes it: the dialog
is seeded from the cached record, and on success the callback delivers
the merge of that record with the form data. -/
def applyEdit (st : CardState) (data : FormData) : CardState :=
  handleSpeciesUpdated st (mergeSpecies st.currentSpecies data)

/-- The card state after a sequence of successful edits. -/
def runEdits (st : CardState) (ds : List FormData) : CardState :=
  ds.foldl applyEdit st

/-- `handleDeleteSpecies`: issue one delete keyed by the cached record's
id; toast success and refresh the router, or toast the failure message
(substituting "Unknown error" when the thrown value is not an `Error`);
in the `finally` block close the confirmation dialog. -/
def handleDeleteSpecies (st : CardState) (o : Outcome) : List Effect × CardState :=
  ([Effect.remoteDelete st.currentSpecies.id] ++
   (match o with
    | .success =>
        [.toastNormal "Species deleted"
           "The species has been deleted successfully.",
         .routerRefresh]
    | .failure fl =>
        [.toastDestructive "Error deleting species"
           (fl.message.getD "Unknown error")]) ++
   [.setConfirmDelete false],
   { st with confirmDelete := false })

/-- The Cancel button of the delete-confirmation dialog:
`setConfirmDelete(false)` and nothing else. -/
def clickCancelDelete (st : CardState) : List Effect × CardState :=
  ([Effect.setConfirmDelete false], { st with confirmDelete := false })

/-- The card's description preview:
`description ? description.slice(0, 150).trim() + "..." : ""`.
A null or empty (falsy) description renders the empty string. -/
def descriptionPreview (s : Species) : String :=
  match s.description with
  | some d => if d = "" then "" else String.mk (jsTrimChars (d.toList.take 150)) ++ "..."
  | none => ""

/-- Digit grouping of `toLocaleString`, working over the reversed digit
list: `k` counts the digits still allowed before the next separator;
a separator is inserted before each further group of three. -/
def groupDigitsRev : List Char → Nat → List Char
  | [], _ => []
  | c :: rest, 0 => ',' :: c :: groupDigitsRev rest 2
  | c :: rest, k + 1 => c :: groupDigitsRev rest k

/-- `Number.prototype.toLocaleString()` on an integer (default locale
modelled as en-US): decimal digits with thousands separators. -/
def toLocaleString (n : Int) : String :=
  (if n < 0 then "-" else "") ++
    String.mk (groupDigitsRev (toString n.natAbs).toList.reverse 3).reverse

/-- The detail dialog's population line:
`total_population ? total_population.toLocaleString() : "N/A"`.
A null or zero (falsy) population renders "N/A". -/
def populationDisplay (s : Species) : String :=
  match s.total_population with
  | some p => if p = 0 then "N/A" else toLocaleString p
  | none => "N/A"

/-- The detail dialog's common-name line: `common_name ?? "N/A"`. -/
def commonNameDisplay (s : Species) : String :=
  match s.common_name with
  | some c => c
  | none => "N/A"

/-- The owner-gated controls block:
`species.author === sessionId && (<Edit/><Delete/>)` — the control
labels rendered, or nothing when the guard fails. -/
def renderedControls (species : Species) (sessionId : String) : List String :=
  if species.author == sessionId then ["Edit", "Delete"] else []

/-- Is the effect an invocation of the update callback? -/
def isCallbackEff : Effect → Bool
  | .callback _ => true
  | _ => false

/-- Is the effect a remote update call? -/
def isRemoteUpdateEff : Effect → Bool
  | .remoteUpdate _ _ => true
  | _ => false

/-- Is the effect a remote delete call? -/
def isRemoteDeleteEff : Effect → Bool
  | .remoteDelete _ => true
  | _ => false

/-- Is the effect any remote call? -/
def isRemoteEff (e : Effect) : Bool :=
  isRemoteUpdateEff e || isRemoteDeleteEff e

/-- Is the effect a toast of either severity? -/
def isToastEff : Effect → Bool
  | .toastNormal _ _ => true
  | .toastDestructive _ _ => true
  | _ => false

/-- Is the effect a destructive (error) toast? -/
def isToastDestructiveEff : Effect → Bool
  | .toastDestructive _ _ => true
  | _ => false

/-- Is the effect a write to the edit-dialog open flag? -/
def isSetOpenEff : Effect → Bool
  | .setOpen _ => true
  | _ => false

/-- The claimed preview semantics, read off the spec words: the ellipsis
suffix is appended whenever a description exists (is not null),
regardless of its content. -/
def descriptionPreviewClaimed (s : Species) : String :=
  match s.description with
  | some d => String.mk (jsTrimChars (d.toList.take 150)) ++ "..."
  | none => ""

/-- The claimed population semantics, read off the spec words: locale
grouping whenever the population is present (any non-negative integer),
"N/A" exactly when it is absent. -/
def populationDisplayClaimed (s : Species) : String :=
  match s.total_population with
  | some p => toLocaleString p
  | none => "N/A"

/-- A concrete record used for witnesses and counterexamples. -/
def exSpeciesBase : Species :=
  { id := 1, author := "author-1", scientific_name := "Panthera leo",
    common_name := some "Lion", kingdom := .Animalia,
    total_population := some 20000, description := some "The lion",
    image := some "lion.png" }

/-- A concrete raw form that passes validation. -/
def exRawForm : RawForm :=
  { scientific_name := "Panthera tigris", common_name := some "Tiger",
    kingdom := .Animalia, total_population := some (.int 3900),
    description := some "The tiger" }

/-- The validated data of `exRawForm`. -/
def exFormData : FormData :=
  { scientific_name := "Panthera tigris", common_name := some "Tiger",
    kingdom := .Animalia, total_population := some 3900,
    description := some "The tiger" }

example : speciesSchemaValidate exRawForm = .ok exFormData := rfl

example : toLocaleString 1234567 = "1,234,567" := rfl
example : toLocaleString 0 = "0" := rfl
example : descriptionPreview
    { id := 1, author := "a", scientific_name := "x", common_name := none,
      kingdom := .Animalia, total_population := none,
      description := some "short  ", image := none } = "short..." := rfl

/-- C1: for every valid form input, a successful submit invokes the
update callback exactly once, with the merged record in which exactly
the five editable fields are replaced by the form data while id, author
and image are unchanged; it also closes the dialog (open flag set false)
and ends back at idle (loading cleared last). -/
theorem edit_submit_success_merges_and_closes (species : Species) (f : RawForm)
    (data : FormData) (h : speciesSchemaValidate f = .ok data) :
    ((handleFormSubmit species f .success).effects.countP isCallbackEff = 1) ∧
    Effect.callback (mergeSpecies species data) ∈ (handleFormSubmit species f .success).effects ∧
    (mergeSpecies species data).id = species.id ∧
    (mergeSpecies species data).author = species.author ∧
    (mergeSpecies species data).image = species.image ∧
    (mergeSpecies species data).scientific_name = data.scientific_name ∧
    (mergeSpecies species data).common_name = data.common_name ∧
    (mergeSpecies species data).kingdom = data.kingdom ∧
    (mergeSpecies species data).total_population = data.total_population ∧
    (mergeSpecies species data).description = data.description ∧
    Effect.setOpen false ∈ (handleFormSubmit species f .success).effects ∧
    (handleFormSubmit species f .success).effects.getLast? = some (.setLoading false) := by
  simp [handleFormSubmit, h, doOnSubmit, mergeSpecies, isCallbackEff, List.countP_cons]

/-- C1 witness at a concrete record and form. -/
theorem edit_submit_success_merges_and_closes_witness :
    Effect.callback (mergeSpecies exSpeciesBase exFormData) ∈
      (handleFormSubmit exSpeciesBase exRawForm .success).effects :=
  (edit_submit_success_merges_and_closes exSpeciesBase exRawForm exFormData rfl).2.1

/-- C2: for every valid form input whose remote update fails, the update
callback is not invoked, the open flag is never written (the dialog
stays open), and the handler still ends back at idle. -/
theorem edit_submit_failure_no_merge_keeps_open (species : Species) (f : RawForm)
    (data : FormData) (fl : Failure) (h : speciesSchemaValidate f = .ok data) :
    ((handleFormSubmit species f (.failure fl)).effects.countP isCallbackEff = 0) ∧
    ((handleFormSubmit species f (.failure fl)).effects.countP isSetOpenEff = 0) ∧
    (handleFormSubmit species f (.failure fl)).effects.getLast? = some (.setLoading false) := by
  cases hm : fl.message <;>
    simp [handleFormSubmit, h, doOnSubmit, hm, isCallbackEff, isSetOpenEff, List.countP_cons]

/-- C2 witness at a concrete record, form and failure. -/
theorem edit_submit_failure_no_merge_keeps_open_witness :
    (handleFormSubmit exSpeciesBase exRawForm (.failure ⟨some "boom"⟩)).effects.countP
      isCallbackEff = 0 :=
  (edit_submit_failure_no_merge_keeps_open exSpeciesBase exRawForm exFormData ⟨some "boom"⟩ rfl).1

/-- C3: submitting with an empty scientific name performs no effects at
all (in particular no remote call) and surfaces the field-level message;
moreover any validation failure blocks the remote update. -/
theorem empty_scientific_name_blocks_submit (species : Species) (f : RawForm) (o : Outcome)
    (h : f.scientific_name = "") :
    (handleFormSubmit species f o).effects = [] ∧
    (⟨"scientific_name", "Scientific name is required"⟩ : FieldError) ∈
      (handleFormSubmit species f o).fieldErrors ∧
    (∀ (f2 : RawForm) (es : List FieldError), speciesSchemaValidate f2 = .error es →
      (handleFormSubmit species f2 o).effects.countP isRemoteUpdateEff = 0) := by
  refine ⟨?_, ?_, ?_⟩
  · simp [handleFormSubmit, speciesSchemaValidate, validateScientificName, h]
  · simp [handleFormSubmit, speciesSchemaValidate, speciesSchemaIssues, validateScientificName, h]
  · intro f2 es h2
    simp [handleFormSubmit, h2]

/-- C3 witness at a concrete empty-name form. -/
theorem empty_scientific_name_blocks_submit_witness :
    (handleFormSubmit exSpeciesBase { exRawForm with scientific_name := "" } .success).effects
      = [] :=
  (empty_scientific_name_blocks_submit exSpeciesBase
    { exRawForm with scientific_name := "" } .success rfl).1

/-- C4: an empty population input is normalized to absent before
validation (not zero, not a validation failure) and, when the rest of
the form is valid, is submitted as absent in the remote update. -/
theorem empty_population_submits_absent (species : Species) (f : RawForm)
    (h1 : f.total_population = populationSetValueAs "") (h2 : f.scientific_name ≠ "") :
    f.total_population = none ∧
    f.total_population ≠ some (.int 0) ∧
    validatePopulation f.total_population = .ok none ∧
    speciesSchemaValidate f = .ok
      { scientific_name := f.scientific_name, common_name := f.common_name,
        kingdom := f.kingdom, total_population := none, description := f.description } ∧
    Effect.remoteUpdate species.id
      { scientific_name := f.scientific_name, common_name := f.common_name,
        kingdom := f.kingdom, total_population := none, description := f.description } ∈
      (handleFormSubmit species f .success).effects := by
  have hn : f.total_population = none := by simp [h1, populationSetValueAs]
  have hlen : f.scientific_name.length ≥ 1 := by
    by_contra hc
    apply h2
    have h0 : f.scientific_name.data.length = 0 := by
      rw [String.length_data]; omega
    exact String.ext (by rw [List.length_eq_zero.mp h0])
  have hv : speciesSchemaValidate f = .ok
      { scientific_name := f.scientific_name, common_name := f.common_name,
        kingdom := f.kingdom, total_population := none, description := f.description } := by
    simp [speciesSchemaValidate, validateScientificName, validatePopulation, hn, hlen]
  refine ⟨hn, by simp [hn], by simp [validatePopulation, hn], hv, ?_⟩
  simp [handleFormSubmit, hv, doOnSubmit]

/-- C4 witness at a concrete form whose population input is empty. -/
theorem empty_population_submits_absent_witness :
    ({ exRawForm with total_population := populationSetValueAs "" } : RawForm).total_population
      = none :=
  (empty_population_submits_absent exSpeciesBase
    { exRawForm with total_population := populationSetValueAs "" } rfl (by decide)).1

/-- C5 counterexample: an empty string is a present description, yet the
truthiness test in the source renders the empty preview without the
ellipsis, while the claimed semantics renders "...". -/
theorem descriptionPreview_empty_desc_counterexample :
    ({ exSpeciesBase with description := some "" } : Species).description = some "" ∧
    descriptionPreview { exSpeciesBase with description := some "" } = "" ∧
    descriptionPreviewClaimed { exSpeciesBase with description := some "" } = "..." ∧
    descriptionPreview { exSpeciesBase with description := some "" } ≠
      descriptionPreviewClaimed { exSpeciesBase with description := some "" } := by
  refine ⟨rfl, rfl, rfl, ?_⟩
  decide

/-- C5 amended: the preview is the first 150 characters, trimmed, with
the ellipsis suffix whenever a non-empty description exists; it is the
empty string when the description is absent or empty. The spec examples
(200 copies of A; no description) are included. -/
theorem descriptionPreview_amended (s : Species) :
    (∀ d, s.description = some d → d ≠ "" →
        descriptionPreview s = String.mk (jsTrimChars (d.toList.take 150)) ++ "...") ∧
    ((s.description = none ∨ s.description = some "") → descriptionPreview s = "") ∧
    descriptionPreview
        { exSpeciesBase with description := some (String.mk (List.replicate 200 'A')) } =
      String.mk (List.replicate 150 'A') ++ "..." ∧
    descriptionPreview { exSpeciesBase with description := none } = "" := by
  refine ⟨?_, ?_, by decide, rfl⟩
  · intro d hd hne
    simp [descriptionPreview, hd, hne]
  · intro hd
    rcases hd with hd | hd <;> simp [descriptionPreview, hd]

/-- C5 witness at a concrete non-empty description. -/
theorem descriptionPreview_amended_witness :
    descriptionPreview { exSpeciesBase with description := some "The lion" } =
      String.mk (jsTrimChars ("The lion".toList.take 150)) ++ "..." :=
  (descriptionPreview_amended { exSpeciesBase with description := some "The lion" }).1
    "The lion" rfl (by decide)

/-- C6 counterexample: population 0 is present (a non-negative integer),
yet the truthiness test in the source renders "N/A", while the claimed
semantics renders the grouped "0". -/
theorem populationDisplay_zero_counterexample :
    ({ exSpeciesBase with total_population := some 0 } : Species).total_population = some 0 ∧
    populationDisplay { exSpeciesBase with total_population := some 0 } = "N/A" ∧
    populationDisplayClaimed { exSpeciesBase with total_population := some 0 } = "0" ∧
    populationDisplay { exSpeciesBase with total_population := some 0 } ≠
      populationDisplayClaimed { exSpeciesBase with total_population := some 0 } := by
  refine ⟨rfl, rfl, rfl, ?_⟩
  decide

/-- C6 amended: the detail dialog renders the population with locale
thousands-grouping whenever it is present and non-zero, and "N/A" when
it is absent or zero. The spec examples (1234567; absent) are
included. -/
theorem populationDisplay_amended (s : Species) :
    (∀ p : Int, s.total_population = some p → p ≠ 0 →
        populationDisplay s = toLocaleString p) ∧
    ((s.total_population = none ∨ s.total_population = some 0) →
        populationDisplay s = "N/A") ∧
    populationDisplay { exSpeciesBase with total_population := some 1234567 } = "1,234,567" ∧
    populationDisplay { exSpeciesBase with total_population := none } = "N/A" := by
  refine ⟨?_, ?_, rfl, rfl⟩
  · intro p hp hne
    simp [populationDisplay, hp, hne]
  · intro hp
    rcases hp with hp | hp <;> simp [populationDisplay, hp]

/-- C6 witness at a concrete present, non-zero population. -/
theorem populationDisplay_amended_witness :
    populationDisplay { exSpeciesBase with total_population := some 20000 } =
      toLocaleString 20000 :=
  (populationDisplay_amended { exSpeciesBase with total_population := some 20000 }).1
    20000 rfl (by decide)

/-- C7: the Edit and Delete controls are rendered exactly when the
record's author equals the viewer's session id, and are omitted entirely
(empty output, not merely disabled) when they differ. -/
theorem controls_rendered_iff_owner (species : Species) (sessionId : String) :
    (renderedControls species sessionId = ["Edit", "Delete"] ↔ species.author = sessionId) ∧
    ("Edit" ∈ renderedControls species sessionId ↔ species.author = sessionId) ∧
    ("Delete" ∈ renderedControls species sessionId ↔ species.author = sessionId) ∧
    (species.author ≠ sessionId → renderedControls species sessionId = []) := by
  by_cases h : species.author = sessionId <;>
    simp [renderedControls, h]

/-- C7 witness: a non-owner viewer gets no controls. -/
theorem controls_rendered_iff_owner_witness :
    renderedControls exSpeciesBase "someone-else" = [] :=
  (controls_rendered_iff_owner exSpeciesBase "someone-else").2.2.2 (by decide)

/-- C8: Cancel performs no remote call and returns the delete flow to
idle; Confirm issues exactly one delete request, keyed by the locally
cached record's id, and the confirmation dialog is closed on both the
success and the failure outcome. -/
theorem delete_flow_cancel_and_confirm (st : CardState) (o : Outcome) :
    ((clickCancelDelete st).1.countP isRemoteEff = 0) ∧
    ((clickCancelDelete st).2.confirmDelete = false) ∧
    ((handleDeleteSpecies st o).1.countP isRemoteEff = 1) ∧
    ((handleDeleteSpecies st o).1.countP isRemoteDeleteEff = 1) ∧
    Effect.remoteDelete st.currentSpecies.id ∈ (handleDeleteSpecies st o).1 ∧
    Effect.setConfirmDelete false ∈ (handleDeleteSpecies st o).1 ∧
    ((handleDeleteSpecies st o).2.confirmDelete = false) := by
  cases o <;>
    simp [clickCancelDelete, handleDeleteSpecies, isRemoteEff, isRemoteDeleteEff,
      isRemoteUpdateEff, List.countP_cons]

/-- C9: on a remote failure the delete path always toasts exactly one
error, substituting "Unknown error" when the thrown value carries no
message, while the edit path toasts only when a message is exposed and
shows no toast at all otherwise. -/
theorem failure_toast_delete_vs_edit (st : CardState) (species : Species) (f : RawForm)
    (data : FormData) (fl : Failure) (h : speciesSchemaValidate f = .ok data) :
    ((handleDeleteSpecies st (.failure fl)).1.countP isToastDestructiveEff = 1) ∧
    Effect.toastDestructive "Error deleting species" (fl.message.getD "Unknown error") ∈
      (handleDeleteSpecies st (.failure fl)).1 ∧
    (fl.message = none →
      Effect.toastDestructive "Error deleting species" "Unknown error" ∈
        (handleDeleteSpecies st (.failure fl)).1) ∧
    (∀ m, fl.message = some m →
      ((handleFormSubmit species f (.failure fl)).effects.countP isToastDestructiveEff = 1) ∧
      Effect.toastDestructive "Error updating species" m ∈
        (handleFormSubmit species f (.failure fl)).effects) ∧
    (fl.message = none →
      (handleFormSubmit species f (.failure fl)).effects.countP isToastEff = 0) := by
  refine ⟨?_, ?_, ?_, ?_, ?_⟩
  · simp [handleDeleteSpecies, isToastDestructiveEff, List.countP_cons]
  · simp [handleDeleteSpecies]
  · intro hm
    simp [handleDeleteSpecies, hm]
  · intro m hm
    constructor
    · simp [handleFormSubmit, h, doOnSubmit, hm, isToastDestructiveEff, List.countP_cons]
    · simp [handleFormSubmit, h, doOnSubmit, hm]
  · intro hm
    simp [handleFormSubmit, h, doOnSubmit, hm, isToastEff, List.countP_cons]

/-- C9 witness: a message-less failure on the delete path toasts the
generic "Unknown error". -/
theorem failure_toast_delete_vs_edit_witness :
    Effect.toastDestructive "Error deleting species" "Unknown error" ∈
      (handleDeleteSpecies (initCardState exSpeciesBase) (.failure ⟨none⟩)).1 :=
  (failure_toast_delete_vs_edit (initCardState exSpeciesBase) exSpeciesBase exRawForm
    exFormData ⟨none⟩ rfl).2.2.1 rfl

/-- Auxiliary invariant: a fold of successful edits never changes the
id, author or image of the cached record, because each step merges into
the current record and overwrites only the five editable fields. -/
theorem runEdits_preserves_identity (ds : List FormData) :
    ∀ st : CardState,
      (runEdits st ds).currentSpecies.id = st.currentSpecies.id ∧
      (runEdits st ds).currentSpecies.author = st.currentSpecies.author ∧
      (runEdits st ds).currentSpecies.image = st.currentSpecies.image := by
  induction ds with
  | nil => intro st; exact ⟨rfl, rfl, rfl⟩
  | cons d rest ih =>
      intro st
      have h := ih (applyEdit st d)
      simpa [runEdits, applyEdit, handleSpeciesUpdated, mergeSpecies, List.foldl_cons]
        using h

/-- C10: after any sequence of edit-callback updates, the cached
record's id, author and image still equal those of the mounted record,
and every delete request from that state targets the original id. -/
theorem card_cached_identity_invariant (species : Species) (ds : List FormData) (o : Outcome) :
    (runEdits (initCardState species) ds).currentSpecies.id = species.id ∧
    (runEdits (initCardState species) ds).currentSpecies.author = species.author ∧
    (runEdits (initCardState species) ds).currentSpecies.image = species.image ∧
    Effect.remoteDelete species.id ∈
      (handleDeleteSpecies (runEdits (initCardState species) ds) o).1 := by
  obtain ⟨h1, h2, h3⟩ := runEdits_preserves_identity ds (initCardState species)
  simp only [initCardState] at h1 h2 h3
  refine ⟨h1, h2, h3, ?_⟩
  cases o <;> simp [handleDeleteSpecies, initCardState] <;> exact h1.symm
